import Mathlib

/-!
Shallow embedding of `src/data_generator.py` (class `EventDataGenerator` and
its command-line `main`).

Modelling conventions:
* Dates are day numbers (days since 0000-03-01 of the proleptic Gregorian
  calendar); `toRD`/`fromRD` are the standard civil-calendar conversions,
  mirroring Python's `datetime.date` arithmetic (`date + timedelta(days=n)`
  is `rd + n`).
* `isoWeekNumber` models `date.isocalendar()[1]` by the ISO 8601 rule.
* A `datetime` value is its total count of seconds, `rd * 86400 + secOfDay`;
  `datetime.combine(d, time.min)` is `rd * 86400`, and `isoformat` is
  order-preserving and injective on these, so the timestamp of an event is
  modelled as that number of seconds.
* Python's global `random` stream is modelled by an explicit stream of raw
  natural numbers (`Gen`): each primitive call (`random.choices`,
  `random.choice`, `random.randint`) consumes one raw value and maps it into
  its range, so every theorem quantified over the stream covers every
  possible sequence of draws.  The weighted draw of `random.choices` is
  modelled as an index draw: all three weights are positive, so its support
  is the whole list, which is all the verified claims depend on.
* A zip archive is its ordered list of entries (name, content); a part
  file's content is its list of event records (the JSON serialization layer
  of `json.dumps` is external to the generation logic).
-/

/-- `True` iff `y` is a Gregorian leap year (mirrors `calendar`'s rule used
by Python's `datetime`). -/
def isLeap (y : Nat) : Bool :=
  (y % 4 == 0 && y % 100 != 0) || y % 400 == 0

/-- Number of days of month `m` (1..12) of year `y`. -/
def daysInMonth (y m : Nat) : Nat :=
  if m = 2 then (if isLeap y then 29 else 28)
  else if m = 4 ∨ m = 6 ∨ m = 9 ∨ m = 11 then 30
  else 31

/-- Civil date to day number (days since 0000-03-01), the standard
days-from-civil computation; valid for years ≥ 1. -/
def toRD (y m d : Nat) : Nat :=
  let y2 := if m ≤ 2 then y - 1 else y
  let era := y2 / 400
  let yoe := y2 % 400
  let mp := (m + 9) % 12
  let doy := (153 * mp + 2) / 5 + (d - 1)
  let doe := yoe * 365 + yoe / 4 - yoe / 100 + doy
  era * 146097 + doe

/-- Day number back to civil date `(y, m, d)`, the standard civil-from-days
computation. -/
def fromRD (rd : Nat) : Nat × Nat × Nat :=
  let era := rd / 146097
  let doe := rd % 146097
  let yoe := (doe - doe / 1460 + doe / 36524 - doe / 146096) / 365
  let y2 := yoe + era * 400
  let doy := doe - (365 * yoe + yoe / 4 - yoe / 100)
  let mp := (5 * doy + 2) / 153
  let d := doy - (153 * mp + 2) / 5 + 1
  let m := if mp < 10 then mp + 3 else mp - 9
  (if m ≤ 2 then y2 + 1 else y2, m, d)

/-- ISO weekday (1 = Monday .. 7 = Sunday) of a day number; day 0
(0000-03-01) was a Wednesday and 146097 is divisible by 7. -/
def isoWeekday (rd : Nat) : Nat := (rd + 2) % 7 + 1

/-- Helper of the ISO "long year" rule. -/
def pY (y : Nat) : Nat := (y + y / 4 - y / 100 + y / 400) % 7

/-- Number of ISO weeks (52 or 53) of year `y`. -/
def isoWeeksInYear (y : Nat) : Nat :=
  if pY y = 4 ∨ pY (y - 1) = 3 then 53 else 52

/-- ISO 8601 week number of the date `(y, m, d)`; models Python's
`date.isocalendar()[1]`, used by `_generate_week_zip` for the archive name. -/
def isoWeekNumber (y m d : Nat) : Nat :=
  let ordinal := toRD y m d - toRD y 1 1 + 1
  let wd := isoWeekday (toRD y m d)
  let w := (ordinal + 10 - wd) / 7
  if w < 1 then isoWeeksInYear (y - 1)
  else if isoWeeksInYear y < w then 1
  else w

/-- ISO week number of a day number. -/
def isoWeekOfRD (rd : Nat) : Nat :=
  match fromRD rd with
  | (y, m, d) => isoWeekNumber y m d

/-- Two-digit zero-padded decimal (for `MM` and `DD` of `str(date)`). -/
def pad2 (n : Nat) : String :=
  if n < 10 then "0" ++ toString n else toString n

/-- Three-digit zero-padded decimal (Python's `f"{i:03d}"`). -/
def pad3 (n : Nat) : String :=
  if n < 10 then "00" ++ toString n
  else if n < 100 then "0" ++ toString n
  else toString n

/-- Four-digit zero-padded decimal (for `YYYY` of `str(date)`). -/
def pad4 (n : Nat) : String :=
  if n < 10 then "000" ++ toString n
  else if n < 100 then "00" ++ toString n
  else if n < 1000 then "0" ++ toString n
  else toString n

/-- `str(date)`: the ISO `YYYY-MM-DD` rendering of a day number. -/
def formatRD (rd : Nat) : String :=
  match fromRD rd with
  | (y, m, d) => pad4 y ++ "-" ++ pad2 m ++ "-" ++ pad2 d

/-- Name of the `i`-th JSON part file, `f"part-{i:03d}.json"`. -/
def partName (i : Nat) : String := "part-" ++ pad3 i ++ ".json"

/-- Name of a daily zip entry, `f"events_{current_date}.zip"`. -/
def dayFileName (rd : Nat) : String := "events_" ++ formatRD rd ++ ".zip"

/-- Name of a weekly master zip, `f"events_week_{week_number}.zip"`. -/
def weekFileName (rd : Nat) : String :=
  "events_week_" ++ toString (isoWeekOfRD rd) ++ ".zip"

/- Sanity anchors for the calendar model. -/

theorem fromRD_toRD_oct23 : fromRD (toRD 2023 10 23) = (2023, 10, 23) := by decide

theorem isoWeekday_oct23 : isoWeekday (toRD 2023 10 23) = 1 := by decide

theorem isoWeek_oct23 : isoWeekNumber 2023 10 23 = 43 := by decide

theorem isoWeek_dec28 : isoWeekNumber 2023 12 28 = 52 := by decide

theorem isoWeek_jan4 : isoWeekNumber 2024 1 4 = 1 := by decide

theorem isoWeek_jan1_2021 : isoWeekNumber 2021 1 1 = 53 := by decide

theorem formatRD_oct23 : formatRD (toRD 2023 10 23) = "2023-10-23" := by decide

/-- The shared pseudorandom source (Python's global `random`): an infinite
stream of raw draws together with the position of the next draw.  Each
primitive consumes one raw draw. -/
structure Gen where
  stream : Nat → Nat
  pos : Nat

/-- Take the next raw draw from the stream. -/
def Gen.next (g : Gen) : Nat × Gen :=
  (g.stream g.pos, { stream := g.stream, pos := g.pos + 1 })

/-- A draw of an index below `n` (models the selection made by
`random.choice` on a list of length `n`, and the index selected by
`random.choices`; ranging over all streams it ranges over all indices). -/
def randIndex (n : Nat) (g : Gen) : Nat × Gen :=
  let r := g.next
  (r.1 % n, r.2)

/-- `random.randint lo hi`: a uniform draw from the closed range
`[lo, hi]`. -/
def randint (lo hi : Nat) (g : Gen) : Nat × Gen :=
  let r := g.next
  (lo + r.1 % (hi + 1 - lo), r.2)

/-- A concrete stream, used to instantiate universally quantified
statements. -/
def g0 : Gen := { stream := fun _ => 0, pos := 0 }

/-- One generated event record, in the field order of the Python dict:
`timestamp` (seconds, see module docstring), `customer_id`, `event_type`,
`product_id`, and `quantity` (present only for purchases). -/
structure Event where
  timestamp : Nat
  customer_id : String
  event_type : String
  product_id : String
  quantity : Option Nat
deriving DecidableEq, Repr

/-- `EventDataGenerator.CUSTOMER_IDS = [f"c{i:03d}" for i in range(1, 101)]`. -/
def CUSTOMER_IDS : List String :=
  (List.range 100).map (fun i => "c" ++ pad3 (i + 1))

/-- `EventDataGenerator.PRODUCT_IDS = [f"p{i:03d}" for i in range(1, 51)]`. -/
def PRODUCT_IDS : List String :=
  (List.range 50).map (fun i => "p" ++ pad3 (i + 1))

/-- `EventDataGenerator.EVENT_TYPES`. -/
def EVENT_TYPES : List String := ["view_product", "add_to_cart", "purchase"]

/-- The constructor state of the `EventDataGenerator` class: start date (as
a day number), output directory, and the three size parameters. -/
structure EventDataGenerator where
  start_date : Nat
  output_dir : String
  days_per_week : Nat
  parts_per_day : Nat
  events_per_part : Nat
deriving DecidableEq

/-- The generator as constructed by `main`: caller-chosen start date and
output directory, all size parameters left at their defaults
(`days_per_week=7`, `parts_per_day=5`, `events_per_part=100`). -/
def defaultGen (sd : Nat) : EventDataGenerator :=
  { start_date := sd, output_dir := "data"
    days_per_week := 7, parts_per_day := 5, events_per_part := 100 }

/-- `EventDataGenerator._create_random_event`: one weighted draw for the
type, one uniform draw each for customer and product, and for purchases one
`randint(1, 3)` draw for the quantity. -/
def create_random_event (t : Nat) (g : Gen) : Event × Gen :=
  let ty := randIndex 3 g
  let event_type := EVENT_TYPES.getD ty.1 ""
  let cu := randIndex 100 ty.2
  let pr := randIndex 50 cu.2
  if event_type = "purchase" then
    let q := randint 1 3 pr.2
    ({ timestamp := t, customer_id := CUSTOMER_IDS.getD cu.1 ""
       event_type := event_type, product_id := PRODUCT_IDS.getD pr.1 ""
       quantity := some q.1 }, q.2)
  else
    ({ timestamp := t, customer_id := CUSTOMER_IDS.getD cu.1 ""
       event_type := event_type, product_id := PRODUCT_IDS.getD pr.1 ""
       quantity := none }, pr.2)

/-- The inner loop of `_generate_day_data`: generate `n` events, advancing
the running time cursor by `random.randint(1, 60)` seconds before each
event.  Returns the events, the final cursor and the final stream state. -/
def genEvents : Nat → Nat → Gen → List Event × Nat × Gen
  | 0, t, g => ([], t, g)
  | n + 1, t, g =>
    let dt := randint 1 60 g
    let t2 := t + dt.1
    let ev := create_random_event t2 dt.2
    let rest := genEvents n t2 ev.2
    (ev.1 :: rest.1, rest.2)

/-- The content of a daily zip: its part files in write order, each a name
together with the list of events its JSON array serializes. -/
abbrev DayZip := List (String × List Event)

/-- The part loop of `_generate_day_data`: `remaining` more parts, the next
one carrying index `idx + 1`, events per part `epp`, time cursor `t`.  The
cursor is threaded through the parts without reset. -/
def genParts (epp : Nat) : Nat → Nat → Nat → Gen → DayZip × Nat × Gen
  | _, 0, t, g => ([], t, g)
  | idx, r + 1, t, g =>
    let evs := genEvents epp t g
    let rest := genParts epp (idx + 1) r evs.2.1 evs.2.2
    ((partName (idx + 1), evs.1) :: rest.1, rest.2)

/-- `EventDataGenerator._generate_day_data`: the day's parts, with the time
cursor starting at `date_val`'s midnight (`datetime.combine(date_val,
datetime.min.time())`, i.e. second `rd * 86400`). -/
def EventDataGenerator.generate_day_data
    (self : EventDataGenerator) (rd : Nat) (g : Gen) : DayZip × Gen :=
  let parts := genParts self.events_per_part 0 self.parts_per_day (rd * 86400) g
  (parts.1, parts.2.2)

/-- A persisted weekly master zip: its file name and its daily-zip entries
in write order. -/
structure WeekZip where
  name : String
  entries : List (String × DayZip)
deriving DecidableEq

/-- The day loop of `_generate_week_zip`: `remaining` more days, the next
one being `week_start + i`. -/
def genDays (self : EventDataGenerator) (weekStart : Nat) :
    Nat → Nat → Gen → List (String × DayZip) × Gen
  | _, 0, g => ([], g)
  | i, r + 1, g =>
    let day := self.generate_day_data (weekStart + i) g
    let rest := genDays self weekStart (i + 1) r day.2
    ((dayFileName (weekStart + i), day.1) :: rest.1, rest.2)

/-- `EventDataGenerator._generate_week_zip`: name the master zip by the ISO
week number of the week's start date and fill it with `days_per_week`
consecutive daily zips. -/
def EventDataGenerator.generate_week_zip
    (self : EventDataGenerator) (weekStart : Nat) (g : Gen) : WeekZip × Gen :=
  let days := genDays self weekStart 0 self.days_per_week g
  ({ name := weekFileName weekStart, entries := days.1 }, days.2)

/-- The loop of `run`: for each `i`, build the week starting at
`start_date + 7 * i` (`timedelta(weeks=i)`).  The result records, in
invocation order, the week start date passed to `_generate_week_zip`
together with the file it wrote. -/
def runLoop (self : EventDataGenerator) : Nat → Nat → Gen → List (Nat × WeekZip) × Gen
  | _, 0, g => ([], g)
  | i, r + 1, g =>
    let ws := self.start_date + 7 * i
    let w := self.generate_week_zip ws g
    let rest := runLoop self (i + 1) r w.2
    ((ws, w.1) :: rest.1, rest.2)

/-- `EventDataGenerator.run`: `for i in range(num_weeks)` — `range` of a
non-positive Python int is empty, hence the `Int.toNat`. -/
def EventDataGenerator.run
    (self : EventDataGenerator) (num_weeks : Int) (g : Gen) :
    List (Nat × WeekZip) × Gen :=
  runLoop self 0 num_weeks.toNat g

/-- All timestamps of a daily zip, in part-then-event order. -/
def flatTimestamps (dz : DayZip) : List Nat :=
  (dz.map Prod.snd).flatten.map Event.timestamp

/-- Split a character list at every dash. -/
def splitDashes : List Char → List (List Char)
  | [] => [[]]
  | c :: rest =>
    let r := splitDashes rest
    if c = '-' then [] :: r
    else
      match r with
      | [] => [[c]]
      | h :: t => (c :: h) :: t

/-- A non-empty all-digit character list as a number. -/
def parseNat (cs : List Char) : Option Nat :=
  if cs = [] then none
  else if cs.all Char.isDigit then
    some (cs.foldl (fun acc c => acc * 10 + (c.toNat - 48)) 0)
  else none

/-- `datetime.strptime(s, "%Y-%m-%d").date()`: three dash-separated decimal
fields which form a valid calendar date (month 1..12, day within the month,
year 1..9999 — the range `datetime` accepts). -/
def parseDate (s : String) : Option (Nat × Nat × Nat) :=
  match splitDashes s.toList with
  | [ys, ms, ds] =>
    match parseNat ys, parseNat ms, parseNat ds with
    | some y, some m, some d =>
      if 1 ≤ y ∧ y ≤ 9999 ∧ 1 ≤ m ∧ m ≤ 12 ∧ 1 ≤ d ∧ d ≤ daysInMonth y m then
        some (y, m, d)
      else none
    | _, _, _ => none
  | _ => none

/-- The observable outcome of the `main` entry point: whether the invalid
date message was printed, the process exit status, and the run's trace of
written weekly archives (empty when generation never ran). -/
structure MainOutcome where
  errorReported : Bool
  exitCode : Nat
  weeks : List (Nat × WeekZip)
deriving DecidableEq

/-- `main`: parse the start date; on `ValueError` print the error message
and `return` — the interpreter then exits with status 0.  Otherwise
construct `EventDataGenerator(start_date=…, output_dir=…)` (all size
parameters defaulted) and call `run(num_weeks=args.count)`; that path also
ends by falling off `main`, status 0.  `args.count` is any `int`; no
positivity check is performed anywhere. -/
def mainModel (count : Int) (startDateStr : String) (g : Gen) : MainOutcome :=
  match parseDate startDateStr with
  | none => { errorReported := true, exitCode := 0, weeks := [] }
  | some (y, m, d) =>
    { errorReported := false, exitCode := 0
      weeks := ((defaultGen (toRD y m d)).run count g).1 }

theorem parseDate_valid : parseDate "2023-10-23" = some (2023, 10, 23) := by decide

theorem parseDate_invalid : parseDate "2023-13-40" = none := by decide

/-- The cursor relation of `_generate_day_data`: each timestamp exceeds its
predecessor by 1 to 60 seconds. -/
abbrev step (a b : Nat) : Prop := a + 1 ≤ b ∧ b ≤ a + 60

theorem create_random_event_timestamp (t : Nat) (g : Gen) :
    (create_random_event t g).1.timestamp = t := by
  simp only [create_random_event]
  split <;> rfl

theorem randint_le (lo hi : Nat) (g : Gen) (h : lo ≤ hi) :
    lo ≤ (randint lo hi g).1 ∧ (randint lo hi g).1 ≤ hi := by
  simp only [randint, Gen.next]
  have hm : g.stream g.pos % (hi + 1 - lo) < hi + 1 - lo :=
    Nat.mod_lt _ (by omega)
  omega

theorem genEvents_spec (n : Nat) : ∀ (t : Nat) (g : Gen),
    ((genEvents n t g).1).length = n ∧
    List.Chain step t (((genEvents n t g).1).map Event.timestamp) ∧
    (genEvents n t g).2.1 = (((genEvents n t g).1).map Event.timestamp).getLastD t := by
  induction n with
  | zero =>
    intro t g
    exact ⟨rfl, List.Chain.nil, rfl⟩
  | succ n ih =>
    intro t g
    have hts := create_random_event_timestamp (t + (randint 1 60 g).1) (randint 1 60 g).2
    obtain ⟨ih1, ih2, ih3⟩ := ih (t + (randint 1 60 g).1)
      ((create_random_event (t + (randint 1 60 g).1) (randint 1 60 g).2).2)
    have hdt := randint_le 1 60 g (by omega)
    simp only [genEvents, List.map_cons, List.length_cons, List.chain_cons, hts,
      List.getLastD_cons]
    exact ⟨by omega, ⟨⟨by omega, by omega⟩, ih2⟩, ih3⟩

theorem chain_step_bounds : ∀ (l : List Nat) (t : Nat), List.Chain step t l →
    ∀ x ∈ l, t + 1 ≤ x ∧ x ≤ t + 60 * l.length := by
  intro l
  induction l with
  | nil => simp
  | cons a l ih =>
    intro t h x hx
    rw [List.chain_cons] at h
    obtain ⟨⟨h1, h2⟩, hc⟩ := h
    rcases List.mem_cons.mp hx with rfl | hx
    · refine ⟨by omega, ?_⟩
      simp only [List.length_cons]
      omega
    · obtain ⟨g1, g2⟩ := ih a hc x hx
      refine ⟨by omega, ?_⟩
      simp only [List.length_cons]
      omega

theorem chain_append_lastD {R : Nat → Nat → Prop} :
    ∀ (l₁ : List Nat) (t : Nat), List.Chain R t l₁ →
      ∀ l₂ : List Nat, List.Chain R (l₁.getLastD t) l₂ → List.Chain R t (l₁ ++ l₂) := by
  intro l₁
  induction l₁ with
  | nil => intro t _ l₂ h2; simpa using h2
  | cons a l ih =>
    intro t h1 l₂ h2
    rw [List.chain_cons] at h1
    rw [List.getLastD_cons] at h2
    rw [List.cons_append, List.chain_cons]
    exact ⟨h1.1, ih a h1.2 l₂ h2⟩

theorem getLastD_append (l₁ l₂ : List Nat) : ∀ t : Nat,
    (l₁ ++ l₂).getLastD t = l₂.getLastD (l₁.getLastD t) := by
  induction l₁ with
  | nil => intro t; rfl
  | cons a l ih =>
    intro t
    rw [List.cons_append, List.getLastD_cons, List.getLastD_cons, ih]

theorem flatTimestamps_nil : flatTimestamps [] = [] := rfl

theorem flatTimestamps_cons (p : String × List Event) (l : DayZip) :
    flatTimestamps (p :: l) = p.2.map Event.timestamp ++ flatTimestamps l := by
  simp [flatTimestamps]

theorem genParts_spec (epp : Nat) : ∀ (k idx t : Nat) (g : Gen),
    ((genParts epp idx k t g).1).map Prod.fst
        = (List.range k).map (fun j => partName (idx + 1 + j)) ∧
    (∀ p ∈ (genParts epp idx k t g).1, p.2.length = epp) ∧
    List.Chain step t (flatTimestamps (genParts epp idx k t g).1) ∧
    (genParts epp idx k t g).2.1 = (flatTimestamps (genParts epp idx k t g).1).getLastD t ∧
    (flatTimestamps (genParts epp idx k t g).1).length = k * epp := by
  intro k
  induction k with
  | zero =>
    intro idx t g
    exact ⟨rfl, by simp [genParts], List.Chain.nil, rfl, by simp [genParts, flatTimestamps]⟩
  | succ k ih =>
    intro idx t g
    obtain ⟨e1, e2, e3⟩ := genEvents_spec epp t g
    obtain ⟨i1, i2, i3, i4, i5⟩ :=
      ih (idx + 1) (genEvents epp t g).2.1 (genEvents epp t g).2.2
    simp only [genParts, flatTimestamps_cons, List.map_cons]
    refine ⟨?_, ?_, ?_, ?_, ?_⟩
    · rw [List.range_succ_eq_map, List.map_cons, List.map_map, i1]
      refine congrArg₂ _ (by rw [Nat.add_zero]) ?_
      refine List.map_congr_left fun j _ => ?_
      simp only [Function.comp]
      refine congrArg _ (by omega)
    · intro p hp
      rcases List.mem_cons.mp hp with rfl | hp
      · exact e1
      · exact i2 p hp
    · refine chain_append_lastD _ t e2 _ ?_
      rw [← e3]
      exact i3
    · rw [getLastD_append, ← e3, i4]
    · rw [List.length_append, List.length_map, e1, i5]
      ring

theorem generate_day_data_spec (self : EventDataGenerator) (rd : Nat) (g : Gen) :
    ((self.generate_day_data rd g).1).map Prod.fst
        = (List.range self.parts_per_day).map (fun j => partName (1 + j)) ∧
    (∀ p ∈ (self.generate_day_data rd g).1, p.2.length = self.events_per_part) ∧
    List.Chain step (rd * 86400) (flatTimestamps (self.generate_day_data rd g).1) ∧
    (flatTimestamps (self.generate_day_data rd g).1).length
        = self.parts_per_day * self.events_per_part := by
  obtain ⟨h1, h2, h3, _, h5⟩ :=
    genParts_spec self.events_per_part self.parts_per_day 0 (rd * 86400) g
  simp only [Nat.zero_add] at h1
  exact ⟨h1, h2, h3, h5⟩

theorem genDays_spec (self : EventDataGenerator) (ws : Nat) : ∀ (r i : Nat) (g : Gen),
    ((genDays self ws i r g).1).map Prod.fst
        = (List.range r).map (fun j => dayFileName (ws + i + j)) ∧
    ∀ e ∈ (genDays self ws i r g).1,
      ∃ rdx gx, e.2 = (self.generate_day_data rdx gx).1 := by
  intro r
  induction r with
  | zero => intro i g; exact ⟨rfl, by simp [genDays]⟩
  | succ r ih =>
    intro i g
    obtain ⟨i1, i2⟩ := ih (i + 1) (self.generate_day_data (ws + i) g).2
    refine ⟨?_, ?_⟩
    · simp only [genDays, List.map_cons]
      rw [List.range_succ_eq_map, List.map_cons, List.map_map, i1]
      refine congrArg₂ _ (congrArg _ (by omega)) ?_
      refine List.map_congr_left fun j _ => ?_
      simp only [Function.comp_apply]
      exact congrArg _ (by omega)
    · intro e he
      rcases List.mem_cons.mp (by simpa only [genDays] using he) with rfl | he
      · exact ⟨ws + i, g, rfl⟩
      · exact i2 e he

theorem generate_week_zip_spec (self : EventDataGenerator) (ws : Nat) (g : Gen) :
    (self.generate_week_zip ws g).1.name = weekFileName ws ∧
    ((self.generate_week_zip ws g).1.entries).map Prod.fst
        = (List.range self.days_per_week).map (fun j => dayFileName (ws + j)) ∧
    ∀ e ∈ (self.generate_week_zip ws g).1.entries,
      ∃ rdx gx, e.2 = (self.generate_day_data rdx gx).1 := by
  obtain ⟨h1, h2⟩ := genDays_spec self ws self.days_per_week 0 g
  simp only [Nat.add_zero] at h1
  exact ⟨rfl, h1, h2⟩

theorem runLoop_spec (self : EventDataGenerator) : ∀ (r i : Nat) (g : Gen),
    ((runLoop self i r g).1).map Prod.fst
        = (List.range r).map (fun j => self.start_date + 7 * (i + j)) ∧
    ((runLoop self i r g).1).map (fun p => p.2.name)
        = (List.range r).map (fun j => weekFileName (self.start_date + 7 * (i + j))) ∧
    ((runLoop self i r g).1).length = r ∧
    ∀ p ∈ (runLoop self i r g).1, ∃ gx, p.2 = (self.generate_week_zip p.1 gx).1 := by
  intro r
  induction r with
  | zero => intro i g; exact ⟨rfl, rfl, rfl, by simp [runLoop]⟩
  | succ r ih =>
    intro i g
    obtain ⟨i1, i2, i3, i4⟩ :=
      ih (i + 1) (self.generate_week_zip (self.start_date + 7 * i) g).2
    refine ⟨?_, ?_, ?_, ?_⟩
    · simp only [runLoop, List.map_cons]
      rw [List.range_succ_eq_map, List.map_cons, List.map_map, i1]
      refine congrArg₂ _ (congrArg _ (by omega)) ?_
      refine List.map_congr_left fun j _ => ?_
      simp only [Function.comp_apply]
      exact congrArg _ (by omega)
    · simp only [runLoop, List.map_cons]
      rw [List.range_succ_eq_map, List.map_cons, List.map_map, i2,
        (generate_week_zip_spec self (self.start_date + 7 * i) g).1]
      refine congrArg₂ _ (congrArg _ (by omega)) ?_
      refine List.map_congr_left fun j _ => ?_
      simp only [Function.comp_apply]
      exact congrArg _ (congrArg _ (by omega))
    · simp only [runLoop, List.length_cons, i3]
    · intro p hp
      rcases List.mem_cons.mp (by simpa only [runLoop] using hp) with rfl | hp
      · exact ⟨g, rfl⟩
      · exact i4 p hp

theorem run_spec (self : EventDataGenerator) (k : Int) (g : Gen) :
    ((self.run k g).1).map Prod.fst
        = (List.range k.toNat).map (fun j => self.start_date + 7 * j) ∧
    ((self.run k g).1).map (fun p => p.2.name)
        = (List.range k.toNat).map (fun j => weekFileName (self.start_date + 7 * j)) ∧
    ((self.run k g).1).length = k.toNat ∧
    ∀ p ∈ (self.run k g).1, ∃ gx, p.2 = (self.generate_week_zip p.1 gx).1 := by
  obtain ⟨h1, h2, h3, h4⟩ := runLoop_spec self k.toNat 0 g
  simp only [Nat.zero_add] at h1 h2
  exact ⟨h1, h2, h3, h4⟩

/-- C5 (confirmed): for every `numWeeks` (in particular every
`numWeeks ≥ 1`), `run` invokes the week packager exactly `numWeeks` times;
reading the invocation trace in its sequential order, the `i`-th invocation
(`i = 0, 1, …` in increasing order, each one completing before the next
starts, as modelled by the threading of the random stream) receives week
start date `start_date + 7 * i`. -/
theorem claim_C5 (self : EventDataGenerator) (n : Nat) (g : Gen) :
    ((self.run (n : Int) g).1).length = n ∧
    ((self.run (n : Int) g).1).map Prod.fst
        = (List.range n).map (fun i => self.start_date + 7 * i) := by
  obtain ⟨h1, _, h3, _⟩ := run_spec self (n : Int) g
  rw [Int.toNat_natCast] at h1 h3
  exact ⟨h3, h1⟩

/-- C4 (confirmed): two weeks starting 2023-12-28 produce archives named by
the ISO week numbers 52 (for 2023-12-28) and 1 (for 2024-01-04), i.e. the
week number in the filename follows the ISO 8601 calendar across the year
boundary rather than any day-count division. -/
theorem claim_C4 (g : Gen) :
    (((defaultGen (toRD 2023 12 28)).run 2 g).1).map (fun p => p.2.name)
        = ["events_week_52.zip", "events_week_1.zip"] := by
  obtain ⟨_, h2, _, _⟩ := run_spec (defaultGen (toRD 2023 12 28)) 2 g
  rw [h2]
  decide

/-- C2 (confirmed): for any generated day under the default configuration
(5 parts of 100 events), the timestamp cursor starts at the date's midnight
and advances by 1 to 60 seconds before each event without being reset
between parts (the `List.Chain` fact), so the 500 timestamps, read in
part-then-event order, are strictly increasing and all fall strictly inside
that calendar day. -/
theorem claim_C2 (sd : Nat) (dir : String) (rd : Nat) (g : Gen) :
    (flatTimestamps ((EventDataGenerator.mk sd dir 7 5 100).generate_day_data rd g).1).length
        = 500 ∧
    List.Chain step (rd * 86400)
      (flatTimestamps ((EventDataGenerator.mk sd dir 7 5 100).generate_day_data rd g).1) ∧
    List.Pairwise (· < ·)
      (flatTimestamps ((EventDataGenerator.mk sd dir 7 5 100).generate_day_data rd g).1) ∧
    ∀ x ∈ flatTimestamps ((EventDataGenerator.mk sd dir 7 5 100).generate_day_data rd g).1,
      rd * 86400 < x ∧ x < rd * 86400 + 86400 := by
  obtain ⟨_, _, h3, h5⟩ :=
    generate_day_data_spec (EventDataGenerator.mk sd dir 7 5 100) rd g
  have h500 : (flatTimestamps
      ((EventDataGenerator.mk sd dir 7 5 100).generate_day_data rd g).1).length = 500 := h5
  refine ⟨h500, h3, ?_, ?_⟩
  · have hlt : List.Chain (· < ·) (rd * 86400)
        (flatTimestamps ((EventDataGenerator.mk sd dir 7 5 100).generate_day_data rd g).1) :=
      h3.imp fun a b hab => by omega
    exact (List.pairwise_cons.mp (List.chain_iff_pairwise.mp hlt)).2
  · intro x hx
    obtain ⟨b1, b2⟩ := chain_step_bounds _ _ h3 x hx
    rw [h500] at b2
    omega

/-- C9 (confirmed): for any generated day under the default configuration,
every event timestamp is strictly after midnight; the first event's
timestamp is exactly midnight plus the first random increment, which lies
between 1 and 60 seconds, so no event carries the timestamp 00:00:00. -/
theorem claim_C9 (sd : Nat) (dir : String) (rd : Nat) (g : Gen) :
    (∀ x ∈ flatTimestamps ((EventDataGenerator.mk sd dir 7 5 100).generate_day_data rd g).1,
      rd * 86400 < x) ∧
    ∃ h1 rest,
      flatTimestamps ((EventDataGenerator.mk sd dir 7 5 100).generate_day_data rd g).1
          = h1 :: rest ∧
      rd * 86400 + 1 ≤ h1 ∧ h1 ≤ rd * 86400 + 60 := by
  obtain ⟨_, _, h3, h5⟩ :=
    generate_day_data_spec (EventDataGenerator.mk sd dir 7 5 100) rd g
  refine ⟨?_, ?_⟩
  · intro x hx
    have := (chain_step_bounds _ _ h3 x hx).1
    omega
  · rcases hl : flatTimestamps ((EventDataGenerator.mk sd dir 7 5 100).generate_day_data rd g).1
        with _ | ⟨hd, rest⟩
    · rw [hl] at h5
      simp at h5
    · rw [hl] at h3
      obtain ⟨⟨s1, s2⟩, _⟩ := List.chain_cons.mp h3
      exact ⟨hd, rest, rfl, s1, s2⟩

theorem run_nonpos (self : EventDataGenerator) (g : Gen) (n : Int) (h : n ≤ 0) :
    self.run n g = ([], g) := by
  unfold EventDataGenerator.run
  rw [Int.toNat_of_nonpos h]
  rfl

/-- C10 (confirmed): calling `run` with a non-positive `num_weeks` enters
the loop body zero times: it writes no weekly archives, draws nothing from
the random stream (hence generates no events), and returns normally. -/
theorem claim_C10 (self : EventDataGenerator) (g : Gen) (n : Int) (h : n ≤ 0) :
    (self.run n g).1 = [] ∧ (self.run n g).2 = g := by
  rw [run_nonpos self g n h]
  exact ⟨rfl, rfl⟩

/-- Witness for C10 at `num_weeks = 0`. -/
theorem claim_C10_witness :
    (0 : Int) ≤ 0 ∧
      (((defaultGen (toRD 2023 10 23)).run 0 g0).1 = [] ∧
       ((defaultGen (toRD 2023 10 23)).run 0 g0).2 = g0) :=
  ⟨by decide, claim_C10 (defaultGen (toRD 2023 10 23)) g0 0 (by decide)⟩

theorem CUSTOMER_IDS_getD (i : Nat) (h : i < 100) :
    CUSTOMER_IDS.getD i "" = "c" ++ pad3 (i + 1) := by
  rw [CUSTOMER_IDS, List.getD_eq_getElem?_getD, List.getElem?_map,
    List.getElem?_eq_getElem (by simpa using h)]
  simp

theorem PRODUCT_IDS_getD (i : Nat) (h : i < 50) :
    PRODUCT_IDS.getD i "" = "p" ++ pad3 (i + 1) := by
  rw [PRODUCT_IDS, List.getD_eq_getElem?_getD, List.getElem?_map,
    List.getElem?_eq_getElem (by simpa using h)]
  simp

theorem create_event_type (t : Nat) (g : Gen) :
    (create_random_event t g).1.event_type = EVENT_TYPES.getD (randIndex 3 g).1 "" := by
  simp only [create_random_event]
  split <;> rfl

theorem create_customer (t : Nat) (g : Gen) :
    (create_random_event t g).1.customer_id
        = CUSTOMER_IDS.getD (randIndex 100 (randIndex 3 g).2).1 "" := by
  simp only [create_random_event]
  split <;> rfl

theorem create_product (t : Nat) (g : Gen) :
    (create_random_event t g).1.product_id
        = PRODUCT_IDS.getD (randIndex 50 (randIndex 100 (randIndex 3 g).2).2).1 "" := by
  simp only [create_random_event]
  split <;> rfl

theorem create_quantity (t : Nat) (g : Gen) :
    (create_random_event t g).1.quantity
        = if EVENT_TYPES.getD (randIndex 3 g).1 "" = "purchase"
          then some (randint 1 3 (randIndex 50 (randIndex 100 (randIndex 3 g).2).2).2).1
          else none := by
  by_cases h : EVENT_TYPES.getD (randIndex 3 g).1 "" = "purchase" <;>
    simp only [create_random_event, h, if_true, if_false, if_pos, if_neg,
      not_false_iff]

theorem randIndex_lt (n : Nat) (g : Gen) (h : 0 < n) : (randIndex n g).1 < n := by
  simp only [randIndex]
  exact Nat.mod_lt _ h

/-- C3 (confirmed): every event produced by `_create_random_event` has one
of the three event types; a customer id of the form `c###` with `###` in
001..100; a product id of the form `p###` with `###` in 001..050; and a
`quantity` field exactly when the event type is `purchase`, in which case
it lies between 1 and 3. -/
theorem claim_C3 (t : Nat) (g : Gen) :
    ((create_random_event t g).1.event_type = "view_product" ∨
     (create_random_event t g).1.event_type = "add_to_cart" ∨
     (create_random_event t g).1.event_type = "purchase") ∧
    (∃ k, 1 ≤ k ∧ k ≤ 100 ∧ (create_random_event t g).1.customer_id = "c" ++ pad3 k) ∧
    (∃ k, 1 ≤ k ∧ k ≤ 50 ∧ (create_random_event t g).1.product_id = "p" ++ pad3 k) ∧
    (((create_random_event t g).1.quantity).isSome = true ↔
        (create_random_event t g).1.event_type = "purchase") ∧
    (∀ q, (create_random_event t g).1.quantity = some q → 1 ≤ q ∧ q ≤ 3) := by
  have h3 := randIndex_lt 3 g (by omega)
  have h100 := randIndex_lt 100 (randIndex 3 g).2 (by omega)
  have h50 := randIndex_lt 50 (randIndex 100 (randIndex 3 g).2).2 (by omega)
  refine ⟨?_, ?_, ?_, ?_, ?_⟩
  · rw [create_event_type]
    have hv : (randIndex 3 g).1 = 0 ∨ (randIndex 3 g).1 = 1 ∨ (randIndex 3 g).1 = 2 := by
      omega
    rcases hv with hv | hv | hv <;> rw [hv]
    · exact Or.inl rfl
    · exact Or.inr (Or.inl rfl)
    · exact Or.inr (Or.inr rfl)
  · exact ⟨(randIndex 100 (randIndex 3 g).2).1 + 1, by omega, by omega,
      by rw [create_customer]; exact CUSTOMER_IDS_getD _ h100⟩
  · exact ⟨(randIndex 50 (randIndex 100 (randIndex 3 g).2).2).1 + 1, by omega, by omega,
      by rw [create_product]; exact PRODUCT_IDS_getD _ h50⟩
  · rw [create_quantity, create_event_type]
    by_cases h : EVENT_TYPES.getD (randIndex 3 g).1 "" = "purchase" <;> simp [h]
  · intro q hq
    rw [create_quantity] at hq
    by_cases h : EVENT_TYPES.getD (randIndex 3 g).1 "" = "purchase"
    · rw [if_pos h] at hq
      have hb := randint_le 1 3 (randIndex 50 (randIndex 100 (randIndex 3 g).2).2).2
        (by omega)
      have hq' := Option.some.inj hq
      omega
    · rw [if_neg h] at hq
      exact absurd hq (by simp)

/-- C1 (confirmed): running with `startDate=2023-10-23`, `numWeeks=1` and
the default configuration produces exactly one archive, named
`events_week_43.zip`, containing exactly the 7 entries
`events_2023-10-23.zip` … `events_2023-10-29.zip` in that order; each daily
archive contains exactly the 5 entries `part-001.json` … `part-005.json` in
that order, and each part file's JSON array holds exactly 100 event
objects. -/
theorem claim_C1 (g : Gen) :
    (((defaultGen (toRD 2023 10 23)).run 1 g).1).map (fun p => p.2.name)
        = ["events_week_43.zip"] ∧
    ∀ p ∈ ((defaultGen (toRD 2023 10 23)).run 1 g).1,
      (p.2.entries).map Prod.fst
          = ["events_2023-10-23.zip", "events_2023-10-24.zip", "events_2023-10-25.zip",
             "events_2023-10-26.zip", "events_2023-10-27.zip", "events_2023-10-28.zip",
             "events_2023-10-29.zip"] ∧
      ∀ e ∈ p.2.entries,
        e.2.map Prod.fst
            = ["part-001.json", "part-002.json", "part-003.json", "part-004.json",
               "part-005.json"] ∧
        ∀ q ∈ e.2, q.2.length = 100 := by
  obtain ⟨h1, h2, _, h4⟩ := run_spec (defaultGen (toRD 2023 10 23)) 1 g
  refine ⟨by rw [h2]; decide, ?_⟩
  intro p hp
  have hp1 : p.1 = toRD 2023 10 23 := by
    have hmem : p.1 ∈ (((defaultGen (toRD 2023 10 23)).run 1 g).1).map Prod.fst :=
      List.mem_map_of_mem _ hp
    rw [h1] at hmem
    have hl : (List.range (1 : Int).toNat).map
        (fun j => (defaultGen (toRD 2023 10 23)).start_date + 7 * j)
        = [toRD 2023 10 23] := by decide
    rw [hl] at hmem
    exact List.mem_singleton.mp hmem
  obtain ⟨gx, hw⟩ := h4 p hp
  obtain ⟨_, w2, w3⟩ := generate_week_zip_spec (defaultGen (toRD 2023 10 23)) p.1 gx
  refine ⟨?_, ?_⟩
  · rw [hw, w2, hp1]
    decide
  · intro e he
    rw [hw] at he
    obtain ⟨rdx, gy, hd⟩ := w3 e he
    obtain ⟨d1, d2, _, _⟩ := generate_day_data_spec (defaultGen (toRD 2023 10 23)) rdx gy
    refine ⟨by rw [hd, d1]; decide, ?_⟩
    intro q hq
    rw [hd] at hq
    exact d2 q hq

/-- C6 counterexample: on the invalid start date string `"2023-13-40"` the
program prints the configuration error and writes nothing, but `main`
simply returns, so the process exits with status 0 — not with a non-zero
status as the claim states. -/
theorem claim_C6_counterexample :
    (mainModel 1 "2023-13-40" g0).errorReported = true ∧
    (mainModel 1 "2023-13-40" g0).weeks = [] ∧
    (mainModel 1 "2023-13-40" g0).exitCode = 0 :=
  ⟨rfl, rfl, rfl⟩

/-- C6 (amended): when the command-line start date string is invalid, the
program reports a configuration error to the user, writes no files and
does not proceed with generation, and exits with status 0 — the error path
returns from `main` normally instead of exiting non-zero. -/
theorem claim_C6_amended (count : Int) (s : String) (g : Gen)
    (h : parseDate s = none) :
    (mainModel count s g).errorReported = true ∧
    (mainModel count s g).weeks = [] ∧
    (mainModel count s g).exitCode = 0 := by
  simp [mainModel, h]

/-- Witness for the amended C6 at the spec's invalid input. -/
theorem claim_C6_witness :
    parseDate "2023-13-40" = none ∧
    ((mainModel 2 "2023-13-40" g0).errorReported = true ∧
     (mainModel 2 "2023-13-40" g0).weeks = [] ∧
     (mainModel 2 "2023-13-40" g0).exitCode = 0) :=
  ⟨by decide, claim_C6_amended 2 "2023-13-40" g0 (by decide)⟩

/-- C7 counterexample: with week count 0 — non-positive — and a valid start
date, no configuration error is reported and the run is not aborted: the
program runs its loop zero times, writes no archives, and exits with
status 0.  The claimed validation of the week count does not exist. -/
theorem claim_C7_counterexample :
    (mainModel 0 "2023-10-23" g0).errorReported = false ∧
    (mainModel 0 "2023-10-23" g0).weeks = [] ∧
    (mainModel 0 "2023-10-23" g0).exitCode = 0 :=
  ⟨rfl, rfl, rfl⟩

/-- C7 (amended): a non-positive week count is accepted without any error:
no configuration error is reported, the run proceeds into `run` whose loop
executes zero times, no weekly archives are produced, and the program
exits with status 0. -/
theorem claim_C7_amended (count : Int) (s : String) (y m d : Nat) (g : Gen)
    (hs : parseDate s = some (y, m, d)) (hc : count ≤ 0) :
    (mainModel count s g).errorReported = false ∧
    (mainModel count s g).weeks = [] ∧
    (mainModel count s g).exitCode = 0 := by
  simp [mainModel, hs, run_nonpos _ g count hc]

/-- Witness for the amended C7 at count `-3`. -/
theorem claim_C7_witness :
    (parseDate "2023-10-23" = some (2023, 10, 23) ∧ (-3 : Int) ≤ 0) ∧
    ((mainModel (-3) "2023-10-23" g0).errorReported = false ∧
     (mainModel (-3) "2023-10-23" g0).weeks = [] ∧
     (mainModel (-3) "2023-10-23" g0).exitCode = 0) :=
  ⟨⟨by decide, by decide⟩,
    claim_C7_amended (-3) "2023-10-23" 2023 10 23 g0 (by decide) (by decide)⟩

theorem isoWeeksInYear_le (y : Nat) : isoWeeksInYear y ≤ 53 := by
  unfold isoWeeksInYear
  split <;> omega

theorem isoWeekNumber_le (y m d : Nat) : isoWeekNumber y m d ≤ 53 := by
  simp only [isoWeekNumber]
  split
  · exact isoWeeksInYear_le (y - 1)
  · split
    · omega
    · next h2 =>
      have := isoWeeksInYear_le y
      omega

theorem isoWeekOfRD_le (rd : Nat) : isoWeekOfRD rd ≤ 53 := by
  rcases hf : fromRD rd with ⟨y, m, d⟩
  unfold isoWeekOfRD
  rw [hf]
  exact isoWeekNumber_le y m d

theorem weekNameString_inj :
    ∀ a < 54, ∀ b < 54,
      "events_week_" ++ toString a ++ ".zip" = "events_week_" ++ toString b ++ ".zip"
        → a = b := by decide

/-- C8 counterexample: 53 weeks starting 2023-01-02 (ISO week 1 of 2023)
produce a duplicate archive name — the first week and the 53rd week
(starting 2024-01-01, ISO week 1 of 2024) are both written to
`events_week_1.zip` — so such a run leaves fewer than `numWeeks` distinct
files, refuting the claim for runs whose weeks share an ISO week number. -/
theorem claim_C8_counterexample :
    ¬ ((((defaultGen (toRD 2023 1 2)).run 53 g0).1).map (fun p => p.2.name)).Nodup := by
  rw [(run_spec (defaultGen (toRD 2023 1 2)) 53 g0).2.1]
  decide

/-- C8 (amended): every run with `numWeeks` weeks writes, in order, the
files `events_week_{W}.zip` with `W` the ISO week number of each week's
start date; when those `numWeeks` ISO week numbers are pairwise distinct
the run leaves exactly `numWeeks` distinct files.  (When two generated
weeks share an ISO week number the later week overwrites the earlier
file, leaving fewer files — see the counterexample.) -/
theorem claim_C8_amended (self : EventDataGenerator) (n : Nat) (g : Gen)
    (h : ((List.range n).map (fun i => isoWeekOfRD (self.start_date + 7 * i))).Nodup) :
    ((self.run (n : Int) g).1).map (fun p => p.2.name)
        = (List.range n).map (fun i => weekFileName (self.start_date + 7 * i)) ∧
    ((((self.run (n : Int) g).1).map (fun p => p.2.name)).Nodup) ∧
    ((self.run (n : Int) g).1).length = n := by
  obtain ⟨_, h2, h3, _⟩ := run_spec self (n : Int) g
  rw [Int.toNat_natCast] at h2 h3
  refine ⟨h2, ?_, h3⟩
  rw [h2]
  have hm : (List.range n).map (fun i => weekFileName (self.start_date + 7 * i))
      = ((List.range n).map (fun i => isoWeekOfRD (self.start_date + 7 * i))).map
          (fun w => "events_week_" ++ toString w ++ ".zip") := by
    rw [List.map_map]
    rfl
  rw [hm]
  refine List.Nodup.map_on ?_ h
  intro x hx y hy hxy
  obtain ⟨i, _, hxw⟩ := List.mem_map.mp hx
  obtain ⟨j, _, hyw⟩ := List.mem_map.mp hy
  have hxb : x < 54 := by have := isoWeekOfRD_le (self.start_date + 7 * i); omega
  have hyb : y < 54 := by have := isoWeekOfRD_le (self.start_date + 7 * j); omega
  exact weekNameString_inj x hxb y hyb hxy

/-- Witness for the amended C8: two weeks starting 2023-10-23 carry the
distinct ISO week numbers 43 and 44 and leave two distinct files. -/
theorem claim_C8_witness :
    ((List.range 2).map (fun i => isoWeekOfRD (toRD 2023 10 23 + 7 * i))).Nodup ∧
    ((((defaultGen (toRD 2023 10 23)).run ((2 : Nat) : Int) g0).1).map (fun p => p.2.name)
        = (List.range 2).map (fun i => weekFileName (toRD 2023 10 23 + 7 * i)) ∧
     ((((defaultGen (toRD 2023 10 23)).run ((2 : Nat) : Int) g0).1).map
        (fun p => p.2.name)).Nodup ∧
     (((defaultGen (toRD 2023 10 23)).run ((2 : Nat) : Int) g0).1).length = 2) :=
  ⟨by decide, claim_C8_amended (defaultGen (toRD 2023 10 23)) 2 g0 (by decide)⟩


